import Mathlib

/-!
Shallow embedding of `chatbot_llm.py` (class `FlowboticsChatbotOptimized`).

External collaborators (`VectorDBStore.query`, the Groq completion client and
`AutomatedRLHFSystem.process_interaction`) are modelled as per-turn oracles:
each one either returns a value or raises.  A turn is a pure function of the
current conversation history, the user message, the flags and those oracles;
its outcome records what the caller sees (returned value or escaped
exception), the final history, the message list sent to the completion API,
the feedback-relay calls that were made, and the local `context` / `sources` /
`prompt` variables of the turn.
-/

/-- A chat message, `{"role": ..., "content": ...}`. -/
structure Message where
  role : String
  content : String
deriving DecidableEq, Repr

abbrev History := List Message

/-- Python exceptions that the embedded code can raise or propagate. -/
inductive PyErr where
  /-- `KeyError` on the named dict key. -/
  | keyError (key : String)
  /-- `IndexError` from indexing an empty list. -/
  | indexError
  /-- an exception raised inside `vectordb.query`. -/
  | adapterError
  /-- an exception raised inside `rlhf_system.process_interaction`. -/
  | relayError
deriving DecidableEq, Repr

/-- The greeting list of `chat` / `stream_chat`:
`greetings = ['hi', 'hey', 'hello', 'hola', 'yo', 'sup', 'wassup']`. -/
def greetings : List String := ["hi", "hey", "hello", "hola", "yo", "sup", "wassup"]

/-- Python `str.lower()`: case-fold every character. -/
def pyLower (s : String) : String := String.mk (s.data.map Char.toLower)

/-- Python `str.strip()`: drop leading and trailing whitespace. -/
def pyStrip (s : String) : String :=
  String.mk (((s.data.dropWhile Char.isWhitespace).reverse.dropWhile Char.isWhitespace).reverse)

/-- `user_message.lower().strip() in greetings`. -/
def isGreeting (user_message : String) : Bool :=
  greetings.contains (pyStrip (pyLower user_message))

/-- Python slice `l[-n:]`: the last `n` elements (all of them if fewer). -/
def lastSlice (n : Nat) (l : List α) : List α :=
  l.drop (l.length - n)

/-- Spec-side formulation of the bounded history view: the last `n`
messages in chronological order (`recentWindow(n)` of the spec). -/
def recentWindow (n : Nat) (l : List α) : List α :=
  (l.reverse.take n).reverse

/-- The fixed apology substituted for the response when the synchronous
completion call raises. -/
def apology : String :=
  "I apologize, but I encountered an error. Please try again."

/-- The single fixed error fragment yielded when the streaming completion
call raises. -/
def errorFragment : String :=
  "I apologize, but I encountered an error."

/-- The instruction template wrapped around a non-empty retrieved context
(`prompt = f"""Use this information to answer: ..."""`). -/
def ragTemplate (context user_message : String) : String :=
  "Use this information to answer:\n\n" ++ context
    ++ "\n\nQuestion: " ++ user_message
    ++ "\n\nAnswer naturally without mentioning the context."

/-- `self.system_prompt`, verbatim. -/
def systemPrompt : String :=
  "You are an AI assistant for Flowbotics, an AI automation agency. You are professional, helpful, and efficient.\n"
  ++ "\n"
  ++ "Communication Style:\n"
  ++ "- Professional but approachable\n"
  ++ "- Clear and concise\n"
  ++ "- Direct and solution-focused\n"
  ++ "- Use simple language (avoid technical jargon)\n"
  ++ "- Adapt tone to match the user\x27s formality\n"
  ++ "\n"
  ++ "Greeting Protocol:\n"
  ++ "- When user greets (hey/hi/hello), respond professionally:\n"
  ++ "  * \"Hello! Welcome to Flowbotics. How may I assist you today?\"\n"
  ++ "  * \"Hi there! I\x27m here to help. What can I do for you?\"\n"
  ++ "  * \"Good day! How can I help you with your business automation needs?\"\n"
  ++ "- Keep greetings professional but friendly\n"
  ++ "- One clear question to understand their needs\n"
  ++ "- Don\x27t overwhelm with options upfront\n"
  ++ "\n"
  ++ "What Flowbotics Offers:\n"
  ++ "- AI Chatbots for customer engagement\n"
  ++ "- Business process automation\n"
  ++ "- Lead generation systems\n"
  ++ "- Customer support automation\n"
  ++ "- Data processing and analysis\n"
  ++ "- Custom AI solutions\n"
  ++ "\n"
  ++ "Pricing Plans:\n"
  ++ "- Starter: $99/month (500 conversations, basic features)\n"
  ++ "- Professional: $149/month (unlimited conversations, priority support)\n"
  ++ "- Enterprise: Custom pricing (dedicated support, custom development)\n"
  ++ "\n"
  ++ "Response Guidelines:\n"
  ++ "- Keep responses focused and brief (3-5 sentences for most queries)\n"
  ++ "- Structure complex information with bullet points\n"
  ++ "- Provide accurate, complete information\n"
  ++ "- If unsure, acknowledge limitations honestly\n"
  ++ "- Guide users toward solutions\n"
  ++ "- Avoid phrases like \"based on context\" or \"according to information\"\n"
  ++ "- Answer questions directly without unnecessary preamble\n"
  ++ "\n"
  ++ "Your role: Professional AI assistant providing clear, helpful information about Flowbotics services."

/-- The shape of a value returned by `vectordb.query`, as far as
`get_relevant_context` inspects it.  `falsy` models `not results`;
`documents` / `metadatas` are `none` when the dict key is absent; a
metadata entry is `none` when it lacks the `source` key, otherwise it
carries the source identifier. -/
structure RawResults where
  falsy : Bool
  documents : Option (List (List String))
  metadatas : Option (List (List (Option String)))
deriving DecidableEq, Repr

/-- Per-turn behaviour of `vectordb.query`: either it raises, or it
returns a value. -/
inductive QueryOutcome where
  | raise
  | result (r : RawResults)
deriving DecidableEq, Repr

/-- The loop `for doc, meta in zip(results['documents'][0],
results['metadatas'][0])`: builds `context_parts` and `sources` in order,
raising `KeyError('source')` at the first metadata lacking the key.
`zip` truncates to the shorter list. -/
def formatPairs : List String → List (Option String) → Except PyErr (List String × List String)
  | [], _ => .ok ([], [])
  | _, [] => .ok ([], [])
  | doc :: docs, meta :: metas =>
    match meta with
    | none => .error (.keyError "source")
    | some src =>
      match formatPairs docs metas with
      | .error e => .error e
      | .ok (parts, sources) =>
        .ok (("[Source: " ++ src ++ "]\n" ++ doc) :: parts, src :: sources)

/-- `get_relevant_context`: query the vector DB and format the result into
`(context, sources)`, mirroring the Python evaluation order.  A dict access
on a missing key raises `KeyError`; `[0]` on an empty list raises
`IndexError`; neither is caught. -/
def get_relevant_context (q : QueryOutcome) : Except PyErr (String × List String) :=
  match q with
  | .raise => .error .adapterError
  | .result r =>
    if r.falsy then .ok ("", [])
    else
      match r.documents with
      | none => .error (.keyError "documents")
      | some docs =>
        match docs with
        | [] => .error .indexError
        | d0 :: _ =>
          if d0.isEmpty then .ok ("", [])
          else
            match r.metadatas with
            | none => .error (.keyError "metadatas")
            | some metas =>
              match metas with
              | [] => .error .indexError
              | m0 :: _ =>
                match formatPairs d0 m0 with
                | .error e => .error e
                | .ok (parts, sources) =>
                  .ok (String.intercalate "\n\n---\n\n" parts, sources)

/-- Per-turn behaviour of the external collaborators of `chat`:
`gateway = none` means `client.chat.completions.create` raises, `some s`
means it returns a completion with content `s`; `relayRaises` says whether
`rlhf_system.process_interaction` raises when called. -/
structure Oracles where
  query : QueryOutcome
  gateway : Option String
  relayRaises : Bool
deriving DecidableEq, Repr

/-- Everything observable about one execution of `chat`. -/
structure ChatOutcome where
  /-- what the call returns, or the exception escaping it. -/
  result : Except PyErr String
  /-- `self.conversation_history` after the call. -/
  history : History
  /-- the `messages` list sent to the completion API (`none` if the turn
  raised before reaching it). -/
  sent : Option (List Message)
  /-- the `process_interaction(question, response, context)` calls made. -/
  relayed : List (String × String × String)
  /-- the local `sources` variable at exit. -/
  sources : List String
  /-- the local `context` variable at exit. -/
  context : String
  /-- the local `prompt` variable (`none` if never assigned). -/
  prompt : Option String
deriving Repr

/-- The part of `chat` after the prompt is built: append the user entry,
build `messages`, call the completion API (substituting `apology` on
failure), append the assistant entry, and notify the RLHF system. -/
def chatAfterPrompt (st : History) (user_message prompt context : String)
    (sources : List String) (o : Oracles) (enable_rlhf : Bool) : ChatOutcome :=
  let hist1 := st ++ [{ role := "user", content := prompt }]
  let messages := { role := "system", content := systemPrompt } :: lastSlice 10 hist1
  let assistant_message :=
    match o.gateway with
    | some resp => resp
    | none => apology
  let hist2 := hist1 ++ [{ role := "assistant", content := assistant_message }]
  if enable_rlhf then
    { result := if o.relayRaises then .error .relayError else .ok assistant_message
      history := hist2
      sent := some messages
      relayed := [(user_message, assistant_message, context)]
      sources := sources
      context := context
      prompt := some prompt }
  else
    { result := .ok assistant_message
      history := hist2
      sent := some messages
      relayed := []
      sources := sources
      context := context
      prompt := some prompt }

/-- `chat(user_message, use_rag)`, as a function of the starting history,
the flags and the oracles. -/
def chat (st : History) (user_message : String) (use_rag : Bool)
    (o : Oracles) (enable_rlhf : Bool) : ChatOutcome :=
  if use_rag && !(isGreeting user_message) then
    match get_relevant_context o.query with
    | .error e =>
      { result := .error e, history := st, sent := none, relayed := []
        sources := [], context := "", prompt := none }
    | .ok (context, sources) =>
      let prompt := if context = "" then user_message else ragTemplate context user_message
      chatAfterPrompt st user_message prompt context sources o enable_rlhf
  else
    chatAfterPrompt st user_message user_message "" [] o enable_rlhf

/-- Per-turn behaviour of the external collaborators of `stream_chat`:
`chunks` are the `delta.content` values of the chunks the stream delivers
(`none` models a `None` content); `fails` says whether the stream raises
after delivering them (a failure of `create(stream=True)` itself is
`chunks = []`, `fails = true`). -/
structure StreamOracle where
  query : QueryOutcome
  chunks : List (Option String)
  fails : Bool
  relayRaises : Bool
deriving DecidableEq, Repr

/-- The chunk contents that pass the `if chunk.choices[0].delta.content:`
truthiness test (`None` and the empty string are skipped). -/
def truthyTokens (chunks : List (Option String)) : List String :=
  chunks.filterMap fun c =>
    match c with
    | some s => if s = "" then none else some s
    | none => none

/-- Everything observable about one execution of the `stream_chat`
generator, driven to completion by the caller. -/
structure StreamOutcome where
  /-- the fragments yielded to the caller, in order. -/
  yielded : List String
  /-- normal termination of the generator, or the exception escaping it. -/
  result : Except PyErr Unit
  /-- `self.conversation_history` after the generator finishes. -/
  history : History
  /-- the `messages` list sent to the completion API (`none` if the turn
  raised before reaching it). -/
  sent : Option (List Message)
  /-- the `process_interaction(question, response, context)` calls made. -/
  relayed : List (String × String × String)
  /-- the local `sources` variable at exit. -/
  sources : List String
  /-- the local `context` variable at exit. -/
  context : String
  /-- the local `prompt` variable (`none` if never assigned). -/
  prompt : Option String
deriving Repr

/-- The part of `stream_chat` after the prompt is built: append the user
entry, build `messages`, drive the stream accumulating `full_response`
(resetting it to `errorFragment` and yielding that fragment on failure),
append the assistant entry, and notify the RLHF system. -/
def streamAfterPrompt (st : History) (user_message prompt context : String)
    (sources : List String) (so : StreamOracle) (enable_rlhf : Bool) : StreamOutcome :=
  let hist1 := st ++ [{ role := "user", content := prompt }]
  let messages := { role := "system", content := systemPrompt } :: lastSlice 10 hist1
  let toks := truthyTokens so.chunks
  let yielded := if so.fails then toks ++ [errorFragment] else toks
  let full_response := if so.fails then errorFragment else String.join toks
  let hist2 := hist1 ++ [{ role := "assistant", content := full_response }]
  if enable_rlhf then
    { yielded := yielded
      result := if so.relayRaises then .error .relayError else .ok ()
      history := hist2
      sent := some messages
      relayed := [(user_message, full_response, context)]
      sources := sources
      context := context
      prompt := some prompt }
  else
    { yielded := yielded
      result := .ok ()
      history := hist2
      sent := some messages
      relayed := []
      sources := sources
      context := context
      prompt := some prompt }

/-- `stream_chat(user_message, use_rag)`, as a function of the starting
history, the flags and the oracles. -/
def stream_chat (st : History) (user_message : String) (use_rag : Bool)
    (so : StreamOracle) (enable_rlhf : Bool) : StreamOutcome :=
  if use_rag && !(isGreeting user_message) then
    match get_relevant_context so.query with
    | .error e =>
      { yielded := [], result := .error e, history := st, sent := none
        relayed := [], sources := [], context := "", prompt := none }
    | .ok (context, sources) =>
      let prompt := if context = "" then user_message else ragTemplate context user_message
      streamAfterPrompt st user_message prompt context sources so enable_rlhf
  else
    streamAfterPrompt st user_message user_message "" [] so enable_rlhf

/-- `clear_history`: `self.conversation_history = []`. -/
def clear_history : History := []

/-- One transcript block, `f"{role}:\n{content}\n\n"` with
`role = msg['role'].upper()`. -/
def renderBlock (m : Message) : String :=
  m.role.toUpper ++ ":\n" ++ m.content ++ "\n\n"

/-- The file content written by `save_conversation`: the sequence of
`f.write` calls over the whole `self.conversation_history`. -/
def transcript (h : History) : String :=
  h.foldl (fun acc m => acc ++ renderBlock m) ""

/-- Spec-side transcript: one block per message, in chronological order. -/
def specTranscript : History → String
  | [] => ""
  | m :: rest => renderBlock m ++ specTranscript rest

/-- The filename used by `save_conversation`: the argument unless it is
falsy (`None` or empty), in which case a timestamp-derived default. -/
def save_conversation_filename (filename : Option String) (timestamp : String) : String :=
  match filename with
  | some f => if f = "" then "conversation_" ++ timestamp ++ ".txt" else f
  | none => "conversation_" ++ timestamp ++ ".txt"

/-- `save_conversation(filename)`: the `(filename, file content)` pair it
writes, given the current history and the formatted current timestamp. -/
def save_conversation (h : History) (filename : Option String) (timestamp : String) :
    String × String :=
  (save_conversation_filename filename timestamp, transcript h)

/-- The query outcomes that `get_relevant_context` maps to zero passages
(`("", [])`): a falsy result object, or a present `documents` key whose
first entry is an empty list. -/
def zeroPassages : QueryOutcome → Bool
  | .raise => false
  | .result r =>
    r.falsy ||
      (match r.documents with
       | some (d0 :: _) => d0.isEmpty
       | _ => false)

/-- The Python slice `l[-n:]` is the last `n` elements in chronological
order: the code-side window coincides with the spec-side `recentWindow`. -/
theorem lastSlice_eq_recentWindow (n : Nat) (l : List α) :
    lastSlice n l = recentWindow n l := by
  simpa [lastSlice, recentWindow, List.rtake] using List.rtake_eq_reverse_take_reverse l n

theorem chatAfterPrompt_prompt (st : History) (m p c : String) (s : List String)
    (o : Oracles) (rl : Bool) :
    (chatAfterPrompt st m p c s o rl).prompt = some p := by
  cases rl <;> simp [chatAfterPrompt]

theorem chatAfterPrompt_sent (st : History) (m p c : String) (s : List String)
    (o : Oracles) (rl : Bool) :
    (chatAfterPrompt st m p c s o rl).sent
      = some ({ role := "system", content := systemPrompt }
          :: lastSlice 10 (st ++ [{ role := "user", content := p }])) := by
  cases rl <;> simp [chatAfterPrompt]

theorem chatAfterPrompt_context (st : History) (m p c : String) (s : List String)
    (o : Oracles) (rl : Bool) :
    (chatAfterPrompt st m p c s o rl).context = c := by
  cases rl <;> simp [chatAfterPrompt]

theorem chatAfterPrompt_sources (st : History) (m p c : String) (s : List String)
    (o : Oracles) (rl : Bool) :
    (chatAfterPrompt st m p c s o rl).sources = s := by
  cases rl <;> simp [chatAfterPrompt]

theorem chatAfterPrompt_history (st : History) (m p c : String) (s : List String)
    (o : Oracles) (rl : Bool) :
    (chatAfterPrompt st m p c s o rl).history
      = st ++ [{ role := "user", content := p },
               { role := "assistant", content := o.gateway.getD apology }] := by
  cases rl <;> cases hg : o.gateway <;> simp [chatAfterPrompt, hg]

theorem chatAfterPrompt_relayed (st : History) (m p c : String) (s : List String)
    (o : Oracles) (rl : Bool) :
    (chatAfterPrompt st m p c s o rl).relayed
      = if rl then [(m, o.gateway.getD apology, c)] else [] := by
  cases rl <;> cases hg : o.gateway <;> simp [chatAfterPrompt, hg]

theorem chatAfterPrompt_result (st : History) (m p c : String) (s : List String)
    (o : Oracles) (rl : Bool) :
    (chatAfterPrompt st m p c s o rl).result
      = if rl && o.relayRaises then .error .relayError
        else .ok (o.gateway.getD apology) := by
  cases rl <;> cases hr : o.relayRaises <;> cases hg : o.gateway <;>
    simp [chatAfterPrompt, hg, hr]

theorem chat_skip (st : History) (m : String) (use_rag : Bool) (o : Oracles) (rl : Bool)
    (h : (use_rag && !(isGreeting m)) = false) :
    chat st m use_rag o rl = chatAfterPrompt st m m "" [] o rl := by
  simp [chat, h]

theorem chat_rag_ok (st : History) (m : String) (o : Oracles) (rl : Bool)
    (c : String) (s : List String)
    (hng : isGreeting m = false)
    (hq : get_relevant_context o.query = .ok (c, s)) :
    chat st m true o rl
      = chatAfterPrompt st m (if c = "" then m else ragTemplate c m) c s o rl := by
  simp [chat, hng, hq]

theorem chat_rag_error (st : History) (m : String) (o : Oracles) (rl : Bool)
    (e : PyErr)
    (hng : isGreeting m = false)
    (hq : get_relevant_context o.query = .error e) :
    chat st m true o rl
      = { result := .error e, history := st, sent := none, relayed := []
          sources := [], context := "", prompt := none } := by
  simp [chat, hng, hq]

theorem streamAfterPrompt_prompt (st : History) (m p c : String) (s : List String)
    (so : StreamOracle) (rl : Bool) :
    (streamAfterPrompt st m p c s so rl).prompt = some p := by
  cases rl <;> simp [streamAfterPrompt]

theorem streamAfterPrompt_sent (st : History) (m p c : String) (s : List String)
    (so : StreamOracle) (rl : Bool) :
    (streamAfterPrompt st m p c s so rl).sent
      = some ({ role := "system", content := systemPrompt }
          :: lastSlice 10 (st ++ [{ role := "user", content := p }])) := by
  cases rl <;> simp [streamAfterPrompt]

theorem streamAfterPrompt_yielded (st : History) (m p c : String) (s : List String)
    (so : StreamOracle) (rl : Bool) :
    (streamAfterPrompt st m p c s so rl).yielded
      = if so.fails then truthyTokens so.chunks ++ [errorFragment]
        else truthyTokens so.chunks := by
  cases rl <;> cases hf : so.fails <;> simp [streamAfterPrompt, hf]

theorem streamAfterPrompt_history (st : History) (m p c : String) (s : List String)
    (so : StreamOracle) (rl : Bool) :
    (streamAfterPrompt st m p c s so rl).history
      = st ++ [{ role := "user", content := p },
               { role := "assistant",
                 content := if so.fails then errorFragment
                            else String.join (truthyTokens so.chunks) }] := by
  cases rl <;> cases hf : so.fails <;> simp [streamAfterPrompt, hf]

theorem streamAfterPrompt_relayed (st : History) (m p c : String) (s : List String)
    (so : StreamOracle) (rl : Bool) :
    (streamAfterPrompt st m p c s so rl).relayed
      = if rl then [(m, (if so.fails then errorFragment
                         else String.join (truthyTokens so.chunks)), c)]
        else [] := by
  cases rl <;> cases hf : so.fails <;> simp [streamAfterPrompt, hf]

theorem streamAfterPrompt_result (st : History) (m p c : String) (s : List String)
    (so : StreamOracle) (rl : Bool) :
    (streamAfterPrompt st m p c s so rl).result
      = if rl && so.relayRaises then .error .relayError else .ok () := by
  cases rl <;> cases hr : so.relayRaises <;> simp [streamAfterPrompt, hr]

theorem stream_chat_skip (st : History) (m : String) (use_rag : Bool)
    (so : StreamOracle) (rl : Bool)
    (h : (use_rag && !(isGreeting m)) = false) :
    stream_chat st m use_rag so rl = streamAfterPrompt st m m "" [] so rl := by
  simp [stream_chat, h]

theorem stream_chat_rag_ok (st : History) (m : String) (so : StreamOracle) (rl : Bool)
    (c : String) (s : List String)
    (hng : isGreeting m = false)
    (hq : get_relevant_context so.query = .ok (c, s)) :
    stream_chat st m true so rl
      = streamAfterPrompt st m (if c = "" then m else ragTemplate c m) c s so rl := by
  simp [stream_chat, hng, hq]

theorem stream_chat_rag_error (st : History) (m : String) (so : StreamOracle) (rl : Bool)
    (e : PyErr)
    (hng : isGreeting m = false)
    (hq : get_relevant_context so.query = .error e) :
    stream_chat st m true so rl
      = { yielded := [], result := .error e, history := st, sent := none
          relayed := [], sources := [], context := "", prompt := none } := by
  simp [stream_chat, hng, hq]

/-- The query outcomes classified as zero passages are exactly the ones
`get_relevant_context` maps to an empty context and empty source list. -/
theorem zeroPassages_context (q : QueryOutcome) (h : zeroPassages q = true) :
    get_relevant_context q = .ok ("", []) := by
  cases q with
  | raise => simp [zeroPassages] at h
  | result r =>
    obtain ⟨falsy, documents, metadatas⟩ := r
    cases falsy with
    | true => simp [get_relevant_context]
    | false =>
      cases documents with
      | none => simp [zeroPassages] at h
      | some docs =>
        cases docs with
        | nil => simp [zeroPassages] at h
        | cons d0 rest =>
          simp [zeroPassages] at h
          simp [get_relevant_context, h]

theorem foldl_render_append (h : History) (acc : String) :
    h.foldl (fun a m => a ++ renderBlock m) acc = acc ++ specTranscript h := by
  induction h generalizing acc with
  | nil => simp [specTranscript]
  | cons m rest ih => simp [specTranscript, ih, String.append_assoc]

/-- A turn whose gateway call happened went through `chatAfterPrompt`. -/
theorem chat_reaches (st : History) (m : String) (use_rag : Bool) (o : Oracles) (rl : Bool)
    (hsent : (chat st m use_rag o rl).sent.isSome = true) :
    ∃ p c s, chat st m use_rag o rl = chatAfterPrompt st m p c s o rl := by
  cases hcond : (use_rag && !(isGreeting m)) with
  | false => exact ⟨m, "", [], by rw [chat_skip st m use_rag o rl hcond]⟩
  | true =>
    have hng : isGreeting m = false := by
      cases h : isGreeting m <;> simp [h] at hcond ⊢
    have hrag : use_rag = true := by
      cases h : use_rag <;> simp [h] at hcond ⊢
    subst hrag
    cases hq : get_relevant_context o.query with
    | error e =>
      rw [chat_rag_error st m o rl e hng hq] at hsent
      simp at hsent
    | ok cs =>
      obtain ⟨c, s⟩ := cs
      exact ⟨_, c, s, chat_rag_ok st m o rl c s hng hq⟩

/-- A streaming turn whose gateway call happened went through
`streamAfterPrompt`. -/
theorem stream_chat_reaches (st : History) (m : String) (use_rag : Bool)
    (so : StreamOracle) (rl : Bool)
    (hsent : (stream_chat st m use_rag so rl).sent.isSome = true) :
    ∃ p c s, stream_chat st m use_rag so rl = streamAfterPrompt st m p c s so rl := by
  cases hcond : (use_rag && !(isGreeting m)) with
  | false => exact ⟨m, "", [], by rw [stream_chat_skip st m use_rag so rl hcond]⟩
  | true =>
    have hng : isGreeting m = false := by
      cases h : isGreeting m <;> simp [h] at hcond ⊢
    have hrag : use_rag = true := by
      cases h : use_rag <;> simp [h] at hcond ⊢
    subst hrag
    cases hq : get_relevant_context so.query with
    | error e =>
      rw [stream_chat_rag_error st m so rl e hng hq] at hsent
      simp at hsent
    | ok cs =>
      obtain ⟨c, s⟩ := cs
      exact ⟨_, c, s, stream_chat_rag_ok st m so rl c s hng hq⟩

/-- C1 counterexample: a mid-stream gateway failure after a fragment has
already been yielded.  The caller receives the fragment and then the fixed
error fragment, so the concatenation of all yielded fragments is not the
content of the assistant history entry (which is the error fragment
alone, `full_response` having been reset). -/
theorem stream_failure_concat_counterexample :
    (stream_chat [] "pricing" false
      { query := .raise, chunks := [some "The plans"], fails := true, relayRaises := false }
      false).yielded = ["The plans", errorFragment]
    ∧ (stream_chat [] "pricing" false
      { query := .raise, chunks := [some "The plans"], fails := true, relayRaises := false }
      false).history
      = [{ role := "user", content := "pricing" },
         { role := "assistant", content := errorFragment }]
    ∧ String.join ["The plans", errorFragment] ≠ errorFragment :=
  ⟨rfl, rfl, by decide⟩

/-- C1 (amended): for every streaming turn that reaches the gateway, an
assistant entry is appended as the last history message; when the stream
completes, the concatenation of the yielded fragments equals its content;
when the stream fails mid-turn, its content is exactly the fixed error
fragment while the yielded sequence is the fragments yielded before the
failure followed by the error fragment. -/
theorem stream_fragments_amended (st : History) (m : String) (use_rag : Bool)
    (so : StreamOracle) (rl : Bool)
    (hsent : (stream_chat st m use_rag so rl).sent.isSome = true) :
    ∃ resp, (stream_chat st m use_rag so rl).history.getLast?
        = some { role := "assistant", content := resp }
    ∧ (so.fails = false → String.join (stream_chat st m use_rag so rl).yielded = resp)
    ∧ (so.fails = true → resp = errorFragment
        ∧ (stream_chat st m use_rag so rl).yielded
            = truthyTokens so.chunks ++ [errorFragment]) := by
  obtain ⟨p, c, s, hre⟩ := stream_chat_reaches st m use_rag so rl hsent
  rw [hre, streamAfterPrompt_history, streamAfterPrompt_yielded]
  refine ⟨(if so.fails then errorFragment else String.join (truthyTokens so.chunks)),
    by simp, ?_, ?_⟩
  · intro hf; rw [hf]; simp
  · intro hf; rw [hf]; simp

/-- C1 witness: a successful stream of four chunks (one `None`, one empty)
concatenates to the appended assistant content. -/
theorem stream_fragments_amended_witness :
    String.join (stream_chat [] "pricing" false
      { query := .raise, chunks := [some "The ", none, some "", some "plans"],
        fails := false, relayRaises := false } false).yielded = "The plans" := by
  obtain ⟨resp, h1, h2, h3⟩ := stream_fragments_amended [] "pricing" false
    { query := .raise, chunks := [some "The ", none, some "", some "plans"],
      fails := false, relayRaises := false } false rfl
  have hever : (stream_chat [] "pricing" false
      { query := .raise, chunks := [some "The ", none, some "", some "plans"],
        fails := false, relayRaises := false } false).history.getLast?
      = some { role := "assistant", content := "The plans" } := rfl
  rw [hever] at h1
  injection h1 with h1
  exact (h2 rfl).trans (congrArg Message.content h1).symm

/-- C2 counterexample: with RLHF enabled, a raising
`rlhf_system.process_interaction` makes both `chat` and `stream_chat`
propagate the exception to the caller — there is no try/except around the
relay call, so it is not swallowed. -/
theorem relay_exception_counterexample :
    (chat [] "tell me more" false
      { query := .raise, gateway := some "Sure.", relayRaises := true } true).result
      = .error .relayError
    ∧ (stream_chat [] "tell me more" false
      { query := .raise, chunks := [some "Su", some "re."], fails := false,
        relayRaises := true } true).result
      = .error .relayError := ⟨rfl, rfl⟩

/-- C2 (amended): with RLHF enabled, if `process_interaction` raises, the
exception escapes the turn: `chat` raises instead of returning and the
streaming generator raises at its end — although by that point the
assistant response has already been appended to history. -/
theorem relay_exception_propagates (st : History) (m : String) (use_rag : Bool)
    (o : Oracles) (so : StreamOracle)
    (ho : o.relayRaises = true) (hso : so.relayRaises = true)
    (hsent : (chat st m use_rag o true).sent.isSome = true)
    (hssent : (stream_chat st m use_rag so true).sent.isSome = true) :
    (chat st m use_rag o true).result = .error .relayError
    ∧ (∃ p resp, (chat st m use_rag o true).history
        = st ++ [{ role := "user", content := p }, { role := "assistant", content := resp }])
    ∧ (stream_chat st m use_rag so true).result = .error .relayError
    ∧ (∃ p resp, (stream_chat st m use_rag so true).history
        = st ++ [{ role := "user", content := p }, { role := "assistant", content := resp }]) := by
  obtain ⟨p, c, s, hch⟩ := chat_reaches st m use_rag o true hsent
  obtain ⟨p2, c2, s2, hsc⟩ := stream_chat_reaches st m use_rag so true hssent
  rw [hch, hsc]
  refine ⟨?_, ⟨p, o.gateway.getD apology, chatAfterPrompt_history ..⟩, ?_,
    ⟨p2, _, streamAfterPrompt_history ..⟩⟩
  · rw [chatAfterPrompt_result, ho]; simp
  · rw [streamAfterPrompt_result, hso]; simp

/-- C2 witness: a concrete turn with a raising relay. -/
theorem relay_exception_propagates_witness :
    (chat [] "tell me about plans" true
      { query := .result { falsy := true, documents := none, metadatas := none },
        gateway := some "Sure.", relayRaises := true } true).result = .error .relayError :=
  (relay_exception_propagates [] "tell me about plans" true
    { query := .result { falsy := true, documents := none, metadatas := none },
      gateway := some "Sure.", relayRaises := true }
    { query := .result { falsy := true, documents := none, metadatas := none },
      chunks := [some "Sure."], fails := false, relayRaises := true }
    rfl rfl rfl rfl).1

/-- C3 counterexample: a truthy query result lacking the `documents` key
makes the turn raise `KeyError('documents')` (history untouched), and a
raising `vectordb.query` propagates its exception — malformed or failing
retrieval is not treated as zero passages. -/
theorem malformed_retrieval_counterexample :
    (chat [] "what is the pricing" true
      { query := .result { falsy := false, documents := none, metadatas := some [[some "faq"]] },
        gateway := some "resp", relayRaises := false } false).result
      = .error (.keyError "documents")
    ∧ (chat [] "what is the pricing" true
      { query := .result { falsy := false, documents := none, metadatas := some [[some "faq"]] },
        gateway := some "resp", relayRaises := false } false).history = []
    ∧ (chat [] "what is the pricing" true
      { query := .raise, gateway := some "resp", relayRaises := false } false).result
      = .error .adapterError := ⟨rfl, rfl, rfl⟩

/-- C3 (amended): for a retrieval-enabled non-greeting turn, only a falsy
query result or an empty first `documents` entry is treated as zero
passages (empty context, empty sources, raw prompt); any exception from
`get_relevant_context` — adapter failure, missing key, empty list —
escapes the turn before the gateway or relay is reached. -/
theorem retrieval_degraded_or_raises (st : History) (m : String) (o : Oracles) (rl : Bool)
    (hng : isGreeting m = false) :
    (zeroPassages o.query = true →
      (chat st m true o rl).context = ""
      ∧ (chat st m true o rl).sources = []
      ∧ (chat st m true o rl).prompt = some m)
    ∧ (∀ e, get_relevant_context o.query = .error e →
      (chat st m true o rl).result = .error e
      ∧ (chat st m true o rl).history = st
      ∧ (chat st m true o rl).sent = none
      ∧ (chat st m true o rl).relayed = []) := by
  constructor
  · intro hz
    have hq := zeroPassages_context o.query hz
    rw [chat_rag_ok st m o rl "" [] hng hq]
    rw [chatAfterPrompt_context, chatAfterPrompt_sources, chatAfterPrompt_prompt]
    simp
  · intro e he
    rw [chat_rag_error st m o rl e hng he]
    exact ⟨rfl, rfl, rfl, rfl⟩

/-- C3 witness: a falsy query result degrades to the raw prompt. -/
theorem retrieval_degraded_or_raises_witness :
    (chat [] "what is the pricing" true
      { query := .result { falsy := true, documents := none, metadatas := none },
        gateway := some "resp", relayRaises := false } true).prompt
      = some "what is the pricing" :=
  ((retrieval_degraded_or_raises [] "what is the pricing"
    { query := .result { falsy := true, documents := none, metadatas := none },
      gateway := some "resp", relayRaises := false } true (by decide)).1 (by decide)).2.2

/-- C4: on a synchronous turn that reaches the gateway, with RLHF enabled
and a non-raising relay, a gateway failure is swallowed: `chat` returns
the fixed non-empty apology, an assistant entry containing it is appended,
and the relay is still notified. -/
theorem gateway_failure_apology (st : History) (m : String) (use_rag : Bool) (o : Oracles)
    (hsent : (chat st m use_rag o true).sent.isSome = true)
    (hg : o.gateway = none) (hr : o.relayRaises = false) :
    (chat st m use_rag o true).result = .ok apology
    ∧ apology ≠ ""
    ∧ (∃ p, (chat st m use_rag o true).history
        = st ++ [{ role := "user", content := p }, { role := "assistant", content := apology }])
    ∧ (∃ c, (chat st m use_rag o true).relayed = [(m, apology, c)]) := by
  have hresp : o.gateway.getD apology = apology := by rw [hg]; rfl
  cases hcond : (use_rag && !(isGreeting m)) with
  | false =>
    rw [chat_skip st m use_rag o true hcond] at hsent ⊢
    refine ⟨?_, by decide, ⟨m, ?_⟩, ⟨"", ?_⟩⟩
    · rw [chatAfterPrompt_result, hr, hresp]; simp
    · rw [chatAfterPrompt_history, hresp]
    · rw [chatAfterPrompt_relayed, hresp]; simp
  | true =>
    have hng : isGreeting m = false := by
      cases h : isGreeting m <;> simp [h] at hcond ⊢
    have hrag : use_rag = true := by
      cases h : use_rag <;> simp [h] at hcond ⊢
    subst hrag
    cases hq : get_relevant_context o.query with
    | error e =>
      rw [chat_rag_error st m o true e hng hq] at hsent
      simp at hsent
    | ok cs =>
      obtain ⟨c, s⟩ := cs
      rw [chat_rag_ok st m o true c s hng hq] at hsent ⊢
      refine ⟨?_, by decide, ⟨(if c = "" then m else ragTemplate c m), ?_⟩, ⟨c, ?_⟩⟩
      · rw [chatAfterPrompt_result, hr, hresp]; simp
      · rw [chatAfterPrompt_history, hresp]
      · rw [chatAfterPrompt_relayed, hresp]; simp

/-- C4 witness: a concrete turn whose gateway raises. -/
theorem gateway_failure_apology_witness :
    (chat [] "pricing" false { query := .raise, gateway := none, relayRaises := false } true).result
      = .ok apology :=
  (gateway_failure_apology [] "pricing" false
    { query := .raise, gateway := none, relayRaises := false } rfl rfl rfl).1

/-- C5: for a greeting message (trimmed, lower-cased, exact member of the
greeting set), the turn skips retrieval regardless of `use_rag` — the
outcome does not depend on the query oracle — the prompt is the raw
message, `sources` is empty; and membership is exact match, not substring
match. -/
theorem greeting_fast_path :
    (∀ (st : History) (m : String) (use_rag : Bool) (o : Oracles) (rl : Bool),
      isGreeting m = true →
      (chat st m use_rag o rl).prompt = some m
      ∧ (chat st m use_rag o rl).sources = []
      ∧ (chat st m use_rag o rl).context = ""
      ∧ ∀ q : QueryOutcome,
          chat st m use_rag o rl = chat st m use_rag { o with query := q } rl)
    ∧ isGreeting "hello there" = false
    ∧ isGreeting "hi how are you" = false
    ∧ isGreeting "  HELLO  " = true := by
  refine ⟨?_, by decide, by decide, by decide⟩
  intro st m use_rag o rl hg
  have hcond : (use_rag && !(isGreeting m)) = false := by simp [hg]
  refine ⟨?_, ?_, ?_, ?_⟩
  · rw [chat_skip st m use_rag o rl hcond, chatAfterPrompt_prompt]
  · rw [chat_skip st m use_rag o rl hcond, chatAfterPrompt_sources]
  · rw [chat_skip st m use_rag o rl hcond, chatAfterPrompt_context]
  · intro q
    rw [chat_skip st m use_rag o rl hcond, chat_skip st m use_rag _ rl hcond]
    cases o
    cases rl <;> simp [chatAfterPrompt]

/-- C5 witness: the greeting "Hi" with retrieval nominally on. -/
theorem greeting_fast_path_witness :
    (chat [] "Hi" true { query := .raise, gateway := some "r", relayRaises := false } true).prompt
      = some "Hi" :=
  (greeting_fast_path.1 [] "Hi" true
    { query := .raise, gateway := some "r", relayRaises := false } true (by decide)).1

/-- C6: for a retrieval-enabled non-greeting turn whose query returns zero
passages, the assembled prompt is exactly the raw user message. -/
theorem zero_passages_raw_prompt (st : History) (m : String) (o : Oracles) (rl : Bool)
    (hng : isGreeting m = false) (hz : zeroPassages o.query = true) :
    (chat st m true o rl).prompt = some m := by
  have hq := zeroPassages_context o.query hz
  rw [chat_rag_ok st m o rl "" [] hng hq]
  rw [chatAfterPrompt_prompt]
  simp

/-- C6 witness: a query returning an empty first documents list. -/
theorem zero_passages_raw_prompt_witness :
    (chat [] "what is the pricing" true
      { query := .result { falsy := false, documents := some [[]], metadatas := none }
        gateway := some "r", relayRaises := false } false).prompt
      = some "what is the pricing" :=
  zero_passages_raw_prompt [] "what is the pricing"
    { query := .result { falsy := false, documents := some [[]], metadatas := none }
      gateway := some "r", relayRaises := false } false (by decide) (by decide)

/-- C7: the message list sent to the gateway is the system prompt followed
by the last 10 history messages in chronological order, where the window
is taken after the current user turn was appended; with 15 messages the
window is the last 10 in original order, with at most 10 it is all of
them. -/
theorem prompt_window_after_append :
    (∀ (st : History) (m : String) (use_rag : Bool) (o : Oracles) (rl : Bool) (p : String),
      (chat st m use_rag o rl).prompt = some p →
      (chat st m use_rag o rl).sent
        = some ({ role := "system", content := systemPrompt }
            :: recentWindow 10 (st ++ [{ role := "user", content := p }])))
    ∧ (∀ l : History, l.length = 15 → recentWindow 10 l = l.drop 5)
    ∧ (∀ l : History, l.length ≤ 10 → recentWindow 10 l = l) := by
  refine ⟨?_, ?_, ?_⟩
  · intro st m use_rag o rl p hp
    rw [← lastSlice_eq_recentWindow]
    cases hcond : (use_rag && !(isGreeting m)) with
    | false =>
      rw [chat_skip st m use_rag o rl hcond] at hp ⊢
      rw [chatAfterPrompt_prompt] at hp
      injection hp with hp
      subst hp
      exact chatAfterPrompt_sent ..
    | true =>
      have hng : isGreeting m = false := by
        cases h : isGreeting m <;> simp [h] at hcond ⊢
      have hrag : use_rag = true := by
        cases h : use_rag <;> simp [h] at hcond ⊢
      subst hrag
      cases hq : get_relevant_context o.query with
      | error e =>
        rw [chat_rag_error st m o rl e hng hq] at hp
        simp at hp
      | ok cs =>
        obtain ⟨c, s⟩ := cs
        rw [chat_rag_ok st m o rl c s hng hq] at hp ⊢
        rw [chatAfterPrompt_prompt] at hp
        injection hp with hp
        subst hp
        exact chatAfterPrompt_sent ..
  · intro l hl
    rw [← lastSlice_eq_recentWindow, lastSlice, hl]
  · intro l hl
    rw [recentWindow, List.take_of_length_le (by simpa using hl), List.reverse_reverse]

/-- C7 witness: a one-message history is sent in full after the system
prompt. -/
theorem prompt_window_after_append_witness :
    (chat [] "hi" false { query := .raise, gateway := some "r", relayRaises := false } false).sent
      = some ({ role := "system", content := systemPrompt }
          :: recentWindow 10 ([] ++ [{ role := "user", content := "hi" }])) :=
  prompt_window_after_append.1 [] "hi" false
    { query := .raise, gateway := some "r", relayRaises := false } false "hi" rfl

/-- C8: when retrieval produced a non-empty context, the user entry
appended to history — in both the synchronous and the streaming turn — is
the assembled instruction-template prompt (which always differs from the
raw message), and every feedback-relay call receives the original user
message and the context. -/
theorem augmented_prompt_in_history (st : History) (m : String) (o : Oracles)
    (so : StreamOracle) (rl : Bool) (c : String) (s : List String)
    (hng : isGreeting m = false)
    (hq : get_relevant_context o.query = .ok (c, s))
    (hsq : get_relevant_context so.query = .ok (c, s))
    (hc : c ≠ "") :
    (∃ resp, (chat st m true o rl).history
        = st ++ [{ role := "user", content := ragTemplate c m },
                 { role := "assistant", content := resp }])
    ∧ (∃ resp, (stream_chat st m true so rl).history
        = st ++ [{ role := "user", content := ragTemplate c m },
                 { role := "assistant", content := resp }])
    ∧ ragTemplate c m ≠ m
    ∧ (∀ t ∈ (chat st m true o rl).relayed, t.1 = m ∧ t.2.2 = c)
    ∧ (∀ t ∈ (stream_chat st m true so rl).relayed, t.1 = m ∧ t.2.2 = c) := by
  rw [chat_rag_ok st m o rl c s hng hq, stream_chat_rag_ok st m so rl c s hng hsq]
  have hp : (if c = "" then m else ragTemplate c m) = ragTemplate c m := by simp [hc]
  rw [hp]
  refine ⟨⟨o.gateway.getD apology, chatAfterPrompt_history ..⟩,
    ⟨_, streamAfterPrompt_history ..⟩, ?_, ?_, ?_⟩
  · intro heq
    have h1 := congrArg String.length heq
    rw [ragTemplate] at h1
    rw [String.length_append, String.length_append, String.length_append,
      String.length_append] at h1
    have hA : (0:Nat) < ("Use this information to answer:\n\n").length := by decide
    omega
  · rw [chatAfterPrompt_relayed]
    cases rl <;> simp
  · rw [streamAfterPrompt_relayed]
    cases rl <;> simp

/-- C8 witness: one retrieved passage; the templated prompt differs from
the raw message, for the synchronous and the streaming turn alike. -/
theorem augmented_prompt_in_history_witness :
    ragTemplate "[Source: faq]\ndoc text" "what is the pricing" ≠ "what is the pricing" :=
  (augmented_prompt_in_history [] "what is the pricing"
    { query := .result { falsy := false,
                         documents := some [["doc text"]],
                         metadatas := some [[some "faq"]] },
      gateway := some "resp", relayRaises := false }
    { query := .result { falsy := false,
                         documents := some [["doc text"]],
                         metadatas := some [[some "faq"]] },
      chunks := [some "resp"], fails := false, relayRaises := false } false
    "[Source: faq]\ndoc text" ["faq"] (by decide) rfl rfl (by decide)).2.2.1

/-- C9: `save_conversation` writes the entire history (whatever its
length) as one `<ROLE>:\n<content>\n\n` block per message in chronological
order, and when no filename is given derives the filename from the
current timestamp. -/
theorem save_conversation_full_transcript :
    (∀ (h : History) (filename : Option String) (ts : String),
      (save_conversation h filename ts).2 = specTranscript h)
    ∧ (∀ (h : History) (ts : String),
      (save_conversation h none ts).1 = "conversation_" ++ ts ++ ".txt") := by
  constructor
  · intro h filename ts
    show transcript h = specTranscript h
    rw [transcript, foldl_render_append, String.empty_append]
  · intro h ts
    rfl

/-- C10: after `clear_history`, the recent-window read of any size — both
the code-side slice and the spec-side window — is empty. -/
theorem clear_history_empty_window (n : Nat) :
    lastSlice n clear_history = [] ∧ recentWindow n clear_history = [] := by
  simp [clear_history, lastSlice, recentWindow]
